import Mathlib

/-!
Verification of the DeadlockSSH honeypot server (deadlockssh.py and
http_stats_server.py) against its natural-language specification.

The Python source is shallowly embedded: float-valued delays become
rationals, byte strings become lists of naturals, the per-connection
handler becomes an explicit state transformer parameterised over the
point (if any) at which an exception is raised, and the configuration
loader becomes a sequential application over a parsed INI section with
early abort on a malformed value.
-/

namespace DeadlockSSH

/-! ### Per-source adaptive delay (deadlockssh.py lines 80, 254-258, 283-288)

`ip_delays` is a defaultdict whose default is `initial_delay`.  On each
connection the handler applies `min(ip_delays[ip], max_delay)`; in the
handler's finally block the stored value becomes
`min(ip_delays[ip] + delay_increment, max_delay)`.  For a single source
address with no concurrent overlap the stored value after `n` completed
connect/disconnect cycles is the following recursion. -/

/-- Stored `ip_delays[ip]` after `n` sequential connection teardowns
(deadlockssh.py line 80 for the default, lines 285-288 for the update). -/
def storedDelay (initial inc maxd : ℚ) : Nat → ℚ
  | 0 => initial
  | n + 1 => min (storedDelay initial inc maxd n + inc) maxd

/-- Delay applied on the connection following `n` completed cycles
(deadlockssh.py lines 255-258: `min(self.ip_delays[client_ip], max_delay)`). -/
def observedDelay (initial inc maxd : ℚ) (n : Nat) : ℚ :=
  min (storedDelay initial inc maxd n) maxd

lemma min_add_min (a M i : ℚ) (hi : 0 ≤ i) :
    min (min a M + i) M = min (a + i) M := by
  rcases le_total a M with h | h
  · rw [min_eq_left h]
  · rw [min_eq_right h]
    have h1 : M ≤ M + i := le_add_of_nonneg_right hi
    have h2 : M + i ≤ a + i := by linarith
    rw [min_eq_right h1, min_eq_right (le_trans h1 h2)]

lemma observedDelay_min (initial inc maxd : ℚ) (hinc : 0 ≤ inc) (n : Nat) :
    observedDelay initial inc maxd n = min (initial + n * inc) maxd := by
  induction n with
  | zero => simp [observedDelay, storedDelay]
  | succ n ih =>
    have hs : min (storedDelay initial inc maxd n) maxd
        = min (initial + n * inc) maxd := ih
    show min (min (storedDelay initial inc maxd n + inc) maxd) maxd = _
    rw [min_assoc, min_self,
      ← min_add_min (storedDelay initial inc maxd n) maxd inc hinc, hs,
      min_add_min _ _ _ hinc]
    congr 1
    push_cast
    ring

/-- C1: with a non-negative delay increment, the delay applied on the
(N+1)-th sequential connection from one address equals
`min(initial_delay + N * delay_increment, max_delay)`. -/
theorem adaptive_delay_formula (initial inc maxd : ℚ) (hinc : 0 ≤ inc) (n : Nat) :
    observedDelay initial inc maxd n = min (initial + n * inc) maxd :=
  observedDelay_min initial inc maxd hinc n

/-- C1 witness: with initial_delay = 1, delay_increment = 2, max_delay = 5,
four sequential connections observe delays 1, 3, 5, 5. -/
theorem adaptive_delay_formula_witness :
    observedDelay 1 2 5 0 = 1 ∧ observedDelay 1 2 5 1 = 3 ∧
    observedDelay 1 2 5 2 = 5 ∧ observedDelay 1 2 5 3 = 5 := by
  have h0 := adaptive_delay_formula 1 2 5 (by norm_num) 0
  have h1 := adaptive_delay_formula 1 2 5 (by norm_num) 1
  have h2 := adaptive_delay_formula 1 2 5 (by norm_num) 2
  have h3 := adaptive_delay_formula 1 2 5 (by norm_num) 3
  refine ⟨?_, ?_, ?_, ?_⟩
  · rw [h0]; norm_num
  · rw [h1]; norm_num
  · rw [h2]; norm_num
  · rw [h3]; norm_num

/-- C9 counterexample: with the arbitrary configuration
initial_delay = 1, delay_increment = -3, max_delay = 60 the stored delay
after one teardown is -2: it leaves [0, max_delay] and strictly decreases,
so the claimed invariant fails for arbitrary configured values. -/
theorem delay_range_counterexample :
    storedDelay 1 (-3) 60 1 < 0 ∧
    storedDelay 1 (-3) 60 1 < storedDelay 1 (-3) 60 0 := by
  have h : storedDelay 1 (-3) 60 1 = -2 := by
    show min ((1 : ℚ) + -3) 60 = -2
    rw [min_eq_left (by norm_num)]
    norm_num
  constructor
  · rw [h]; norm_num
  · rw [h]; show (-2 : ℚ) < 1; norm_num

/-- C9 amended: provided 0 ≤ initial_delay ≤ max_delay and
0 ≤ delay_increment (satisfied by the defaults), the stored per-address
delay stays in [0, max_delay] and is monotonically non-decreasing across
connection teardowns. -/
theorem delay_invariant_amended (initial inc maxd : ℚ)
    (h0 : 0 ≤ initial) (hmax : initial ≤ maxd) (hinc : 0 ≤ inc) (n : Nat) :
    (0 ≤ storedDelay initial inc maxd n ∧ storedDelay initial inc maxd n ≤ maxd) ∧
    storedDelay initial inc maxd n ≤ storedDelay initial inc maxd (n + 1) := by
  have key : ∀ m : Nat, 0 ≤ storedDelay initial inc maxd m ∧
      storedDelay initial inc maxd m ≤ maxd := by
    intro m
    induction m with
    | zero => exact ⟨h0, hmax⟩
    | succ m ih =>
      constructor
      · exact le_min (by linarith [ih.1]) (by linarith [ih.1, ih.2])
      · exact min_le_right _ _
  refine ⟨key n, ?_⟩
  exact le_min (by linarith [(key n).1]) ((key n).2)

/-- C9 amended witness: the default configuration initial_delay = 1,
delay_increment = 2, max_delay = 60 satisfies the invariant at n = 2. -/
theorem delay_invariant_amended_witness :
    (0 ≤ storedDelay 1 2 60 2 ∧ storedDelay 1 2 60 2 ≤ 60) ∧
    storedDelay 1 2 60 2 ≤ storedDelay 1 2 60 3 :=
  delay_invariant_amended 1 2 60 (by norm_num) (by norm_num) (by norm_num) 2

/-! ### Connection handler (deadlockssh.py lines 230-297)

`handle_client` is a try / except / finally block.  The try body first
calls `settimeout` and `setsockopt` on the client socket, then performs
the statistics increments, then delay / banner / monitoring.  Any
exception is caught by the except clauses (which only log); the finally
block always runs: it updates `ip_delays[client_ip]`, closes the socket
and decrements `active_connections`.  We embed one handler execution as
a state transformer over the counters relevant to one source address,
parameterised by the point at which an exception (if any) is raised. -/

/-- Where, if anywhere, an exception arises during one `handle_client`
execution.  `atSetup`: `settimeout`/`setsockopt` raises before the
statistics increments (lines 242-246).  `duringBanner`: a `send` inside
`send_ssh_banner` raises socket.error, which that function swallows with
`break` (lines 309-313), so execution continues into monitoring.
`afterStats`: an exception after the statistics increments that is
caught by the handler's except clauses (timeout, reset, other). -/
inductive FailPoint
  | noFail
  | atSetup
  | duringBanner
  | afterStats
  deriving DecidableEq

/-- The server state touched by one handler execution, restricted to a
single source address: the stats counters, the effective stored value of
`ip_delays` for that address, and per-session observables. -/
structure HState where
  totalConnections : Int
  activeConnections : Int
  perSourceCount : Int
  storedDelay : ℚ
  socketClosed : Bool
  monitorRan : Bool
  deriving DecidableEq

/-- The try body of `handle_client` (deadlockssh.py lines 240-275): on a
setup failure nothing has been recorded yet; otherwise the three
statistics counters are incremented (lines 249-252) and, unless a later
exception intervenes, monitoring runs (line 275).  A banner write error
does not prevent monitoring (the banner loop breaks silently). -/
def handleClientBody (fp : FailPoint) (s : HState) : HState :=
  match fp with
  | .atSetup => s
  | .afterStats =>
      { s with totalConnections := s.totalConnections + 1,
               activeConnections := s.activeConnections + 1,
               perSourceCount := s.perSourceCount + 1 }
  | .noFail | .duringBanner =>
      { s with totalConnections := s.totalConnections + 1,
               activeConnections := s.activeConnections + 1,
               perSourceCount := s.perSourceCount + 1,
               monitorRan := true }

/-- `handle_client` = try body, then the finally block (lines 283-297):
`ip_delays[ip] = min(ip_delays[ip] + delay_increment, max_delay)`, close
the socket, decrement `active_connections`. -/
def handleClient (inc maxd : ℚ) (fp : FailPoint) (s : HState) : HState :=
  let s1 := handleClientBody fp s
  { s1 with storedDelay := min (s1.storedDelay + inc) maxd,
            socketClosed := true,
            activeConnections := s1.activeConnections - 1 }

/-- The server's initial per-address state: zero counters, stored delay
at the defaultdict default `initial_delay` (taken here as 1), socket
open, monitoring not yet run. -/
def initialHState : HState :=
  { totalConnections := 0, activeConnections := 0, perSourceCount := 0,
    storedDelay := 1, socketClosed := false, monitorRan := false }

/-- C2: a handler whose socket setup fails raises before the statistics
increments, yet the finally block still decrements `active_connections`,
driving it to -1 from the initial state; `total_connections` was never
incremented on that path.  The claimed invariant (never negative, one
increment on every exit path) fails on the code. -/
theorem active_connections_goes_negative :
    (handleClient 2 60 FailPoint.atSetup initialHState).activeConnections = -1 ∧
    (handleClient 2 60 FailPoint.atSetup initialHState).totalConnections = 0 := by
  constructor <;> rfl

/-- C8: on every exit path of the handler — normal completion, setup
failure, banner write error, or an exception after the statistics
updates — the finally block sets the stored delay for the address to
`min(old + delay_increment, max_delay)`, closes the client socket, and
decrements `active_connections` from its value at the end of the body. -/
theorem handler_teardown (inc maxd : ℚ) (fp : FailPoint) (s : HState) :
    (handleClient inc maxd fp s).storedDelay = min (s.storedDelay + inc) maxd ∧
    (handleClient inc maxd fp s).socketClosed = true ∧
    (handleClient inc maxd fp s).activeConnections
      = (handleClientBody fp s).activeConnections - 1 := by
  cases fp <;> exact ⟨rfl, rfl, rfl⟩

/-! ### Banner transmission (deadlockssh.py lines 299-313)

`send_ssh_banner` iterates over the characters of
`ssh_banner + '\r\n'`; for each it sends the character then sleeps
`banner_delay`; a socket.error on the send breaks out of the loop and
the function returns normally.  We record the trace of sends and
sleeps, parameterised by the index of the first send that raises
(`none` when no send fails). -/

/-- One observable action of the banner loop: transmitting one character
or sleeping for `banner_delay`. -/
inductive BannerEvent
  | send (c : Char)
  | sleep
  deriving DecidableEq

/-- Carriage return, the first terminator character appended to the
configured banner string. -/
def CR : Char := Char.ofNat 13

/-- Line feed, the second terminator character. -/
def LF : Char := Char.ofNat 10

/-- Trace of the banner loop over a remaining character list: if the
next send is the failing one the loop breaks with no further events;
otherwise the send and the following sleep are recorded. -/
def trickleFrom : List Char → Option Nat → List BannerEvent
  | [], _ => []
  | _ :: _, some 0 => []
  | c :: rest, some (k + 1) =>
      BannerEvent.send c :: BannerEvent.sleep :: trickleFrom rest (some k)
  | c :: rest, none =>
      BannerEvent.send c :: BannerEvent.sleep :: trickleFrom rest none

/-- `send_ssh_banner`: the loop runs over the configured banner string
followed by CR and LF (line 306). -/
def sendSSHBanner (banner : List Char) (failAt : Option Nat) : List BannerEvent :=
  trickleFrom (banner ++ [CR, LF]) failAt

/-- The characters actually transmitted in a trace, in order. -/
def sendsOf : List BannerEvent → List Char
  | [] => []
  | BannerEvent.send c :: rest => c :: sendsOf rest
  | BannerEvent.sleep :: rest => sendsOf rest

lemma trickleFrom_none (l : List Char) :
    trickleFrom l none = l.flatMap fun c => [BannerEvent.send c, BannerEvent.sleep] := by
  induction l with
  | nil => rfl
  | cons c rest ih => simp [trickleFrom, ih]

lemma sendsOf_trickleFrom_some (l : List Char) (k : Nat) :
    sendsOf (trickleFrom l (some k)) = l.take k := by
  induction l generalizing k with
  | nil => simp [trickleFrom, sendsOf]
  | cons c rest ih =>
    cases k with
    | zero => rfl
    | succ k => simp [trickleFrom, sendsOf, ih]

lemma sendsOf_pairs (l : List Char) :
    sendsOf (l.flatMap fun c => [BannerEvent.send c, BannerEvent.sleep]) = l := by
  induction l with
  | nil => rfl
  | cons c rest ih =>
    rw [List.flatMap_cons]
    simp [sendsOf, ih]

/-- C7: with no write error the trace is exactly one send per character
of banner ++ CR LF, each followed by the `banner_delay` sleep (so a
sleep separates successive sends); a write error at the k-th send
abandons the rest, having transmitted exactly the first k characters;
and the handler still proceeds to monitoring after a banner write
error. -/
theorem banner_transmission (banner : List Char) (k : Nat)
    (inc maxd : ℚ) (s : HState) :
    sendSSHBanner banner none
      = (banner ++ [CR, LF]).flatMap (fun c => [BannerEvent.send c, BannerEvent.sleep]) ∧
    sendsOf (sendSSHBanner banner none) = banner ++ [CR, LF] ∧
    sendsOf (sendSSHBanner banner (some k)) = (banner ++ [CR, LF]).take k ∧
    (handleClient inc maxd FailPoint.duringBanner s).monitorRan = true := by
  refine ⟨trickleFrom_none _, ?_, sendsOf_trickleFrom_some _ k, rfl⟩
  show sendsOf (trickleFrom (banner ++ [CR, LF]) none) = banner ++ [CR, LF]
  rw [trickleFrom_none, sendsOf_pairs]

/-! ### Input monitoring (deadlockssh.py lines 315-355)

Each iteration of the `monitor_connection` loop appends the received
chunk to the accumulated buffer, computes the data to log (the first
`max_input_length` bytes plus the marker `...[truncated]` when the
buffer is longer than `max_input_length`, the whole buffer otherwise),
and then, when the buffer is longer than `2 * max_input_length`, trims
it to `buffer[-max_input_length:]`.  Bytes are embedded as naturals. -/

/-- The bytes of the truncation marker `...[truncated]` appended at
line 335. -/
def truncMarker : List Nat :=
  [46, 46, 46, 91, 116, 114, 117, 110, 99, 97, 116, 101, 100, 93]

/-- Python `b[-k:]` for a non-negative k: the whole list when k = 0,
otherwise the trailing k elements (the whole list when shorter). -/
def pyTail (k : Nat) (b : List Nat) : List Nat :=
  if k = 0 then b else b.drop (b.length - k)

/-- The data logged for the current buffer (lines 334-337). -/
def logDataOf (maxLen : Nat) (b : List Nat) : List Nat :=
  if maxLen < b.length then b.take maxLen ++ truncMarker else b

/-- The buffer kept for the next read (lines 348-349). -/
def trimBuffer (maxLen : Nat) (b : List Nat) : List Nat :=
  if maxLen * 2 < b.length then pyTail maxLen b else b

/-- One iteration of the monitoring loop after a successful non-empty
read: append the chunk, compute the logged data, trim the buffer.
Returns (logged data, buffer at end of iteration). -/
def monitorStep (maxLen : Nat) (buffer data : List Nat) : List Nat × List Nat :=
  let b := buffer ++ data
  (logDataOf maxLen b, trimBuffer maxLen b)

/-- C6: with a positive `max_input_length`, whenever the accumulated
buffer length L satisfies `max_input_length < L ≤ 2 * max_input_length`
the logged content is exactly the first `max_input_length` bytes plus
the truncation marker, and whenever `L > 2 * max_input_length` the
buffer kept for the next read is exactly its trailing
`max_input_length` bytes. -/
theorem input_truncation_logging (maxLen : Nat) (buffer data : List Nat)
    (hpos : 0 < maxLen) :
    (maxLen < (buffer ++ data).length →
      (buffer ++ data).length ≤ maxLen * 2 →
      (monitorStep maxLen buffer data).1
        = (buffer ++ data).take maxLen ++ truncMarker) ∧
    (maxLen * 2 < (buffer ++ data).length →
      (monitorStep maxLen buffer data).2
          = (buffer ++ data).drop ((buffer ++ data).length - maxLen) ∧
      (monitorStep maxLen buffer data).2.length = maxLen) := by
  constructor
  · intro hgt _
    show logDataOf maxLen (buffer ++ data) = _
    rw [logDataOf, if_pos hgt]
  · intro hbig
    have htail : trimBuffer maxLen (buffer ++ data)
        = (buffer ++ data).drop ((buffer ++ data).length - maxLen) := by
      rw [trimBuffer, if_pos hbig, pyTail, if_neg (Nat.pos_iff_ne_zero.mp hpos)]
    refine ⟨htail, ?_⟩
    show (trimBuffer maxLen (buffer ++ data)).length = maxLen
    rw [htail, List.length_drop]
    omega

/-- C6 witness: with max_input_length = 2, buffer [1, 2, 3] and chunk
[4, 5], the logged data is the first two bytes plus the marker and the
retained buffer is the trailing two bytes. -/
theorem input_truncation_logging_witness :
    (monitorStep 2 [1, 2] [3, 4]).1 = [1, 2] ++ truncMarker ∧
    (monitorStep 2 [1, 2, 3] [4, 5]).2 = [4, 5] := by
  constructor
  · exact (input_truncation_logging 2 [1, 2] [3, 4] (by decide)).1
      (by decide) (by decide)
  · exact ((input_truncation_logging 2 [1, 2, 3] [4, 5] (by decide)).2
      (by decide)).1

/-- C10: with a positive `max_input_length`, at the end of every loop
iteration the accumulated buffer is at most `2 * max_input_length` long,
and a buffer of exactly `2 * max_input_length` bytes is retained
untrimmed (the trimming comparison is strict). -/
theorem buffer_bound (maxLen : Nat) (buffer data : List Nat)
    (hpos : 0 < maxLen) :
    (monitorStep maxLen buffer data).2.length ≤ maxLen * 2 ∧
    ((buffer ++ data).length = maxLen * 2 →
      (monitorStep maxLen buffer data).2 = buffer ++ data) := by
  constructor
  · show (trimBuffer maxLen (buffer ++ data)).length ≤ maxLen * 2
    rw [trimBuffer]
    split
    · rw [pyTail, if_neg (Nat.pos_iff_ne_zero.mp hpos), List.length_drop]
      omega
    · omega
  · intro heq
    show trimBuffer maxLen (buffer ++ data) = buffer ++ data
    rw [trimBuffer, if_neg (by omega)]

/-- C10 witness: with max_input_length = 2, a buffer reaching exactly
four bytes is kept whole and its length is within the bound. -/
theorem buffer_bound_witness :
    (monitorStep 2 [1, 2, 3] [4]).2.length ≤ 4 ∧
    (monitorStep 2 [1, 2, 3] [4]).2 = [1, 2, 3, 4] := by
  constructor
  · exact (buffer_bound 2 [1, 2, 3] [4] (by decide)).1
  · exact (buffer_bound 2 [1, 2, 3] [4] (by decide)).2 (by decide)

/-! ### HTTP statistics endpoint (http_stats_server.py lines 33-52)

`StatsHandler.do_GET` serves `/stats` with status 200 and content type
`application/json`; the body is `json.dumps` of a copy of the stats
dictionary whose `start_time` has been replaced by its `isoformat()`
string and whose `connections_per_ip` Counter has been converted to a
plain dict.  Any other path gets status 404, content type `text/html`
and a fixed HTML body.  The stats dictionary is created (deadlockssh.py
lines 82-87) with keys in the order total_connections,
active_connections, connections_per_ip, start_time, and `json.dumps`
preserves that insertion order. -/

/-- A JSON value, as far as the serialized stats body needs. -/
inductive Json
  | jstr (s : String)
  | jnum (n : Int)
  | jobj (fields : List (String × Json))

/-- Top-level keys of a JSON object. -/
def Json.topKeys : Json → List String
  | .jobj fields => fields.map Prod.fst
  | _ => []

/-- The live stats dictionary of the honeypot, with `start_time` already
rendered by `datetime.isoformat()` (the embedding is agnostic about the
date arithmetic itself). -/
structure StatsDict where
  totalConnections : Int
  activeConnections : Int
  connectionsPerIP : List (String × Int)
  startTimeISO : String
  deriving DecidableEq

/-- The JSON body produced for `/stats` (http_stats_server.py
lines 41-45). -/
def statsJson (s : StatsDict) : Json :=
  Json.jobj
    [("total_connections", Json.jnum s.totalConnections),
     ("active_connections", Json.jnum s.activeConnections),
     ("connections_per_ip",
       Json.jobj (s.connectionsPerIP.map fun p => (p.1, Json.jnum p.2))),
     ("start_time", Json.jstr s.startTimeISO)]

/-- An HTTP response: status, content type, and either a JSON body or a
raw HTML body. -/
structure HTTPReply where
  status : Nat
  contentType : String
  body : Json ⊕ String

/-- `StatsHandler.do_GET` (http_stats_server.py lines 34-52). -/
def doGET (path : String) (s : StatsDict) : HTTPReply :=
  if path = "/stats" then
    { status := 200, contentType := "application/json",
      body := Sum.inl (statsJson s) }
  else
    { status := 404, contentType := "text/html",
      body := Sum.inr "<h1>404 Not Found</h1>" }

/-- Top-level keys of a reply's JSON body (empty for an HTML body). -/
def replyTopKeys (r : HTTPReply) : List String :=
  match r.body with
  | Sum.inl j => j.topKeys
  | Sum.inr _ => []

/-- The stats dictionary after one connection each from 10.0.0.5 and
10.0.0.6, both already closed. -/
def exampleStats : StatsDict :=
  { totalConnections := 2, activeConnections := 0,
    connectionsPerIP := [("10.0.0.5", 1), ("10.0.0.6", 1)],
    startTimeISO := "2025-01-01T00:00:00" }

/-- C4 counterexample: the serialized body names the per-source mapping
`connections_per_ip`, not `connections_per_source` as the claim states —
at the concrete two-connection scenario the body's keys are
total_connections, active_connections, connections_per_ip, start_time
and no key `connections_per_source` exists. -/
theorem stats_key_name_counterexample :
    replyTopKeys (doGET "/stats" exampleStats)
      = ["total_connections", "active_connections",
         "connections_per_ip", "start_time"] ∧
    "connections_per_source" ∉ replyTopKeys (doGET "/stats" exampleStats) := by
  constructor <;> decide

/-- C4 amended: `GET /stats` returns 200 with content type
application/json and a JSON object holding the counters, the per-source
mapping as a plain object under the key `connections_per_ip`, and
`start_time` as the ISO-8601 string; any other path returns 404 with an
HTML body; in the concrete two-source scenario the body carries
total_connections = 2 and the mapping 10.0.0.5 ↦ 1, 10.0.0.6 ↦ 1. -/
theorem stats_endpoint_amended (path : String) (s : StatsDict) :
    (path = "/stats" →
      doGET path s
        = { status := 200, contentType := "application/json",
            body := Sum.inl (Json.jobj
              [("total_connections", Json.jnum s.totalConnections),
               ("active_connections", Json.jnum s.activeConnections),
               ("connections_per_ip",
                 Json.jobj (s.connectionsPerIP.map fun p => (p.1, Json.jnum p.2))),
               ("start_time", Json.jstr s.startTimeISO)]) }) ∧
    (path ≠ "/stats" →
      doGET path s
        = { status := 404, contentType := "text/html",
            body := Sum.inr "<h1>404 Not Found</h1>" }) ∧
    statsJson exampleStats
      = Json.jobj
          [("total_connections", Json.jnum 2),
           ("active_connections", Json.jnum 0),
           ("connections_per_ip",
             Json.jobj [("10.0.0.5", Json.jnum 1), ("10.0.0.6", Json.jnum 1)]),
           ("start_time", Json.jstr "2025-01-01T00:00:00")] := by
  refine ⟨?_, ?_, rfl⟩
  · intro h
    rw [doGET, if_pos h]
    rfl
  · intro h
    rw [doGET, if_neg h]

/-- C4 amended witness: the amended statement at path /stats and at the
path /other with the concrete two-source stats. -/
theorem stats_endpoint_amended_witness :
    doGET "/stats" exampleStats
      = { status := 200, contentType := "application/json",
          body := Sum.inl (statsJson exampleStats) } ∧
    (doGET "/other" exampleStats).status = 404 := by
  constructor
  · exact (stats_endpoint_amended "/stats" exampleStats).1 rfl
  · rw [((stats_endpoint_amended "/other" exampleStats).2.1 (by decide))]

/-! ### Configuration loading (deadlockssh.py lines 99-135)

`load_config` runs `configparser.read` and then, if a `honeypot`
section exists, assigns the sixteen options one at a time in a fixed
order with `getint`/`getfloat`/`getboolean`/`get`, each with the current
default as fallback.  The fallback applies only when the option is
absent; a present but unparseable value raises, which the surrounding
`try` catches, printing a warning.  Options assigned before the raise
keep their file values.  `configparser.read` silently returns an empty
parse for an unreadable file (no warning is printed then); a file that
cannot be parsed at all raises inside the `try` (warning printed,
nothing assigned). -/

/-- A typed option as it appears in the parsed section: absent (the
getter returns the fallback), present with a value of the right type, or
present but malformed (the getter raises ValueError). -/
inductive OptVal (α : Type)
  | absent
  | good (a : α)
  | bad
  deriving DecidableEq

/-- Whether the getter for this option raises. -/
def OptVal.isBad {α : Type} : OptVal α → Bool
  | .bad => true
  | _ => false

/-- The value the getter returns when it does not raise. -/
def OptVal.getOr {α : Type} (v : OptVal α) (d : α) : α :=
  match v with
  | .absent => d
  | .good a => a
  | .bad => d

/-- The parsed `honeypot` section: one typed slot per recognized option,
in the order the loader assigns them (string options cannot be
malformed, `section.get` never raises). -/
structure IniSection where
  port : OptVal Int
  maxConnections : OptVal Int
  sshBanner : Option String
  bannerDelay : OptVal ℚ
  initialDelay : OptVal ℚ
  delayIncrement : OptVal ℚ
  maxDelay : OptVal ℚ
  logFile : Option String
  logLevel : Option String
  maxLogSize : OptVal Int
  logBackupCount : OptVal Int
  maxInputLength : OptVal Int
  connectionTimeout : OptVal Int
  enableHTTPStats : OptVal Bool
  httpStatsPort : OptVal Int
  tcpKeepalive : OptVal Bool
  deriving DecidableEq

/-- A section with every option absent. -/
def emptySection : IniSection :=
  { port := .absent, maxConnections := .absent, sshBanner := none,
    bannerDelay := .absent, initialDelay := .absent,
    delayIncrement := .absent, maxDelay := .absent, logFile := none,
    logLevel := none, maxLogSize := .absent, logBackupCount := .absent,
    maxInputLength := .absent, connectionTimeout := .absent,
    enableHTTPStats := .absent, httpStatsPort := .absent,
    tcpKeepalive := .absent }

/-- The `self.config` dictionary (deadlockssh.py lines 52-69). -/
structure Config where
  port : Int
  maxConnections : Int
  sshBanner : String
  bannerDelay : ℚ
  initialDelay : ℚ
  delayIncrement : ℚ
  maxDelay : ℚ
  logFile : String
  logLevel : String
  maxLogSize : Int
  logBackupCount : Int
  maxInputLength : Int
  connectionTimeout : Int
  enableHTTPStats : Bool
  httpStatsPort : Int
  tcpKeepalive : Bool
  deriving DecidableEq

/-- The compiled-in defaults (deadlockssh.py lines 52-69). -/
def defaultConfig : Config :=
  { port := 2222, maxConnections := 100,
    sshBanner := "SSH-2.0-OpenSSH_8.9p1 Ubuntu-3ubuntu0.1",
    bannerDelay := 1 / 10, initialDelay := 1, delayIncrement := 2,
    maxDelay := 60, logFile := "honeypot.log", logLevel := "INFO",
    maxLogSize := 10485760, logBackupCount := 5, maxInputLength := 1024,
    connectionTimeout := 300, enableHTTPStats := false,
    httpStatsPort := 8080, tcpKeepalive := true }

/-- Assignment of the section's options to the config in source order
(deadlockssh.py lines 114-129): each getter either keeps the fallback,
installs the file value, or raises — in which case the `except` clause
is reached with every earlier assignment already performed.  Returns the
resulting config and whether the warning path was taken. -/
def applySection (sec : IniSection) (c0 : Config) : Config × Bool :=
  if sec.port.isBad then (c0, true) else
  let c1 := { c0 with port := sec.port.getOr c0.port }
  if sec.maxConnections.isBad then (c1, true) else
  let c2 := { c1 with maxConnections := sec.maxConnections.getOr c1.maxConnections }
  let c3 := { c2 with sshBanner := sec.sshBanner.getD c2.sshBanner }
  if sec.bannerDelay.isBad then (c3, true) else
  let c4 := { c3 with bannerDelay := sec.bannerDelay.getOr c3.bannerDelay }
  if sec.initialDelay.isBad then (c4, true) else
  let c5 := { c4 with initialDelay := sec.initialDelay.getOr c4.initialDelay }
  if sec.delayIncrement.isBad then (c5, true) else
  let c6 := { c5 with delayIncrement := sec.delayIncrement.getOr c5.delayIncrement }
  if sec.maxDelay.isBad then (c6, true) else
  let c7 := { c6 with maxDelay := sec.maxDelay.getOr c6.maxDelay }
  let c8 := { c7 with logFile := sec.logFile.getD c7.logFile }
  let c9 := { c8 with logLevel := sec.logLevel.getD c8.logLevel }
  if sec.maxLogSize.isBad then (c9, true) else
  let c10 := { c9 with maxLogSize := sec.maxLogSize.getOr c9.maxLogSize }
  if sec.logBackupCount.isBad then (c10, true) else
  let c11 := { c10 with logBackupCount := sec.logBackupCount.getOr c10.logBackupCount }
  if sec.maxInputLength.isBad then (c11, true) else
  let c12 := { c11 with maxInputLength := sec.maxInputLength.getOr c11.maxInputLength }
  if sec.connectionTimeout.isBad then (c12, true) else
  let c13 := { c12 with connectionTimeout := sec.connectionTimeout.getOr c12.connectionTimeout }
  if sec.enableHTTPStats.isBad then (c13, true) else
  let c14 := { c13 with enableHTTPStats := sec.enableHTTPStats.getOr c13.enableHTTPStats }
  if sec.httpStatsPort.isBad then (c14, true) else
  let c15 := { c14 with httpStatsPort := sec.httpStatsPort.getOr c14.httpStatsPort }
  if sec.tcpKeepalive.isBad then (c15, true) else
  ({ c15 with tcpKeepalive := sec.tcpKeepalive.getOr c15.tcpKeepalive }, false)

/-- The possible outcomes of `configparser.read` on the given file. -/
inductive IniFile
  | unreadable
  | parseFailure
  | noSection
  | withSection (sec : IniSection)

/-- `load_config` (deadlockssh.py lines 99-135): an unreadable file is
silently skipped by `configparser.read` (success message printed, no
warning); a file that fails to parse raises at `read` before any
assignment (warning, defaults kept); a parsed file without a `honeypot`
section changes nothing; otherwise the options are applied in order.
Returns the resulting config and whether the warning was printed. -/
def loadConfig (f : IniFile) (c : Config) : Config × Bool :=
  match f with
  | .unreadable => (c, false)
  | .parseFailure => (c, true)
  | .noSection => (c, false)
  | .withSection sec => applySection sec c

/-- C5 counterexample: a configuration file whose `honeypot` section has
`port = 9999` followed by a malformed `max_connections` produces the
warning, yet the effective configuration has port 9999, not the default
2222 — the claim that the configuration equals the defaults for every
option on any load error fails. -/
theorem config_partial_application_counterexample :
    (loadConfig (IniFile.withSection
        { emptySection with port := OptVal.good 9999,
                            maxConnections := OptVal.bad }) defaultConfig).2
      = true ∧
    (loadConfig (IniFile.withSection
        { emptySection with port := OptVal.good 9999,
                            maxConnections := OptVal.bad }) defaultConfig).1.port
      = 9999 ∧
    defaultConfig.port = 2222 := by
  refine ⟨rfl, rfl, rfl⟩

/-- C5 amended: a file that fails to parse produces a warning with the
configuration left at the defaults, and a file without a honeypot
section leaves them unchanged; but a malformed option value aborts
loading at that option with a warning while options assigned earlier in
the fixed order retain their file values (partial application), and an
unreadable file is silently skipped with no warning. -/
theorem config_load_amended (c : Config) (p : Int) (sec : IniSection)
    (hport : sec.port = OptVal.good p)
    (hmaxc : sec.maxConnections = OptVal.bad) :
    loadConfig IniFile.parseFailure c = (c, true) ∧
    loadConfig IniFile.noSection c = (c, false) ∧
    loadConfig IniFile.unreadable c = (c, false) ∧
    loadConfig (IniFile.withSection sec) c = ({ c with port := p }, true) := by
  refine ⟨rfl, rfl, rfl, ?_⟩
  show applySection sec c = _
  rw [applySection, hport, hmaxc]
  rfl

/-- C5 amended witness: the amended statement at the concrete section
with port = 9999 and a malformed max_connections over the defaults. -/
theorem config_load_amended_witness :
    loadConfig (IniFile.withSection
        { emptySection with port := OptVal.good 9999,
                            maxConnections := OptVal.bad }) defaultConfig
      = ({ defaultConfig with port := 9999 }, true) :=
  (config_load_amended defaultConfig 9999
    { emptySection with port := OptVal.good 9999,
                        maxConnections := OptVal.bad } rfl rfl).2.2.2

/-! ### Startup and exit code (deadlockssh.py lines 178-228, 438-452)

`DeadlockSSH.start` wraps socket creation, bind and listen in a `try`
whose `except Exception` clause only logs `Failed to start server` and
whose `finally` calls `shutdown()`; no exception escapes `start`.
`main` calls `honeypot.start()` inside a `try` and calls `sys.exit(1)`
only when an exception reaches it; otherwise the process falls off the
end of `main` and exits 0. -/

/-- What happens to a server run: bind/listen raises at startup, or the
accept loop runs until a signal-driven graceful shutdown. -/
inductive StartScenario
  | bindFailure
  | graceful
  deriving DecidableEq

/-- The body of `start()` up to and including the accept loop: on a bind
failure it raises before `self.running` is set; on a graceful run it
serves until shutdown and returns. -/
def startBody : StartScenario → Except String Bool
  | .bindFailure => Except.error "bind: address already in use"
  | .graceful => Except.ok true

/-- Result of `DeadlockSSH.start()`: whether the accept loop was entered
and whether an exception escapes the method. -/
structure StartResult where
  served : Bool
  escaped : Bool
  deriving DecidableEq

/-- `start()` (deadlockssh.py lines 182-228): the `except Exception`
clause catches any startup exception and does not re-raise, so `start`
always returns normally. -/
def start (sc : StartScenario) : StartResult :=
  match startBody sc with
  | Except.ok served => { served := served, escaped := false }
  | Except.error _ => { served := false, escaped := false }

/-- `main()` (deadlockssh.py lines 438-452): `sys.exit(1)` runs only if
an exception escapes `start()`; otherwise the interpreter exits 0. -/
def mainExitCode (sc : StartScenario) : Nat :=
  if (start sc).escaped then 1 else 0

/-- C3: when bind/listen fails the server indeed never starts serving,
but `start()` swallows the exception, so `main()` never reaches its
`sys.exit(1)` path and the process exits 0 — contradicting the claimed
non-zero exit code; a graceful shutdown exits 0 as claimed. -/
theorem bind_failure_exit_code :
    (start StartScenario.bindFailure).served = false ∧
    mainExitCode StartScenario.bindFailure = 0 ∧
    mainExitCode StartScenario.graceful = 0 := by
  refine ⟨rfl, rfl, rfl⟩

end DeadlockSSH
